import Mathlib

/-!
Shallow embedding of `src/carl-sbst2022/road_generation_env_discrete.py`
(class `RoadGenerationDiscreteEnv`).

The environment state is the fixed-capacity sequence `self.state` of
discrete coordinate pairs (sentinel `(0, 0)` meaning "slot empty") together
with the episode step counter.  Machine coordinates are naturals; the
continuous quantities (`grid_size / 20`, rewards, observation entries,
out-of-bounds percentages) are rationals.  The external executor invoked by
`compute_step` is a parameter `evaluator` mapping the continuous road
points to a `(reward, max_oob)` pair.  The `np.float16` cast applied to the
observation vector is modelled by `fp16Round` below.
-/

/-- Configuration fixed at construction (`__init__` arguments; the
`results_folder` string plays no role in the modelled behaviour). -/
structure RGConfig where
  max_steps : ℕ
  grid_size : ℚ
  max_number_of_points : ℕ
  max_reward : ℚ
  invalid_test_reward : ℚ
deriving Repr, DecidableEq

/-- Default construction arguments of `RoadGenerationDiscreteEnv.__init__`:
`max_steps=1000, grid_size=200, max_number_of_points=5, max_reward=100,
invalid_test_reward=-10`. -/
def defaultRGConfig : RGConfig :=
  { max_steps := 1000
    grid_size := 200
    max_number_of_points := 5
    max_reward := 100
    invalid_test_reward := -10 }

/-- `self.discretization_precision = 10` (line 69 of the source). -/
def discretization_precision : ℚ := 10

/-- `self.map_buffer_area_width = self.grid_size / 20` (line 70). -/
def map_buffer_area_width (cfg : RGConfig) : ℚ := cfg.grid_size / 20

/-- `number_of_discrete_coords = grid_size * precision - 2 * (buffer_width * precision)`
(lines 72-74); the per-coordinate bound of both the action space and the
observation space. -/
def number_of_discrete_coords (cfg : RGConfig) : ℚ :=
  cfg.grid_size * discretization_precision
    - 2 * (map_buffer_area_width cfg * discretization_precision)

/-- `ADD_UPDATE = 0` (line 44). -/
def ADD_UPDATE : ℕ := 0

/-- `REMOVE = 1` (line 45). -/
def REMOVE : ℕ := 1

/-- Mutable environment state: `self.state` (a sequence of
`max_number_of_points` coordinate pairs) and `self.step_counter`. -/
structure EnvState where
  state : List (ℕ × ℕ)
  step_counter : ℕ
deriving Repr, DecidableEq

/-- Modelled from the spec: `step_counter` is initialised by the parent
class `RoadGenerationEnv.__init__` (file `road_generation_env.py`, not
among the provided sources); per the spec it counts the steps of one
episode starting from 0.  The point slots are the subclass construction
code of lines 63-65: every slot holds the sentinel `(0, 0)`. -/
def initialEnv (cfg : RGConfig) : EnvState :=
  { state := List.replicate cfg.max_number_of_points (0, 0)
    step_counter := 0 }

/-- The 4-field discrete action `(action_type, position, x, y)`
(lines 92-95). -/
structure RGAction where
  action_type : ℕ
  position : ℕ
  x : ℕ
  y : ℕ
deriving Repr, DecidableEq

/-- `self.action_space.contains(action)` for
`MultiDiscrete([2, max_number_of_points, n, n])` with
`n = number_of_discrete_coords` (lines 76-77, checked by the assertion at
line 86). -/
def actionInSpace (cfg : RGConfig) (a : RGAction) : Prop :=
  a.action_type < 2 ∧ a.position < cfg.max_number_of_points ∧
    (a.x : ℚ) < number_of_discrete_coords cfg ∧
    (a.y : ℚ) < number_of_discrete_coords cfg

instance (cfg : RGConfig) (a : RGAction) : Decidable (actionInSpace cfg a) := by
  unfold actionInSpace; infer_instance

/-- `check_coordinates_already_exist(x, y)` (lines 219-223): scans every
slot of `self.state` — sentinel slots included — for an exact match. -/
def check_coordinates_already_exist (s : List (ℕ × ℕ)) (x y : ℕ) : Bool :=
  s.any fun p => x == p.1 && y == p.2

/-- Modelled from the spec: `check_some_coordinates_exist_at_position` is
defined in the parent class `road_generation_env.py`, which is not among
the provided sources.  The spec's `is_present(slot)` is true iff the
slot's coordinates are not the sentinel `(0, 0)`. -/
def check_some_coordinates_exist_at_position (s : List (ℕ × ℕ)) (position : ℕ) : Bool :=
  s.getD position (0, 0) != (0, 0)

/-- `get_road_points` (lines 206-217): collect, in slot order, the slots
whose two coordinates are both nonzero, converting each coordinate by
`(c + map_buffer_area_width) / discretization_precision`. -/
def get_road_points (cfg : RGConfig) : List (ℕ × ℕ) → List (ℚ × ℚ)
  | [] => []
  | p :: rest =>
      if p.1 ≠ 0 ∧ p.2 ≠ 0 then
        (((p.1 : ℚ) + map_buffer_area_width cfg) / discretization_precision,
         ((p.2 : ℚ) + map_buffer_area_width cfg) / discretization_precision)
          :: get_road_points cfg rest
      else
        get_road_points cfg rest

/-- `GridCoordinateSpace.to_continuous` of the spec; the conversion the
source applies inline at lines 212-213. -/
def to_continuous (cfg : RGConfig) (d : ℕ) : ℚ :=
  ((d : ℚ) + map_buffer_area_width cfg) / discretization_precision

/-- Modelled from the spec: `compute_step` lives in the parent class
`road_generation_env.py`, not among the provided sources.  Per the spec it
invokes the external RoadEvaluator on the current snapshot
(`get_road_points`) and returns the `(reward, max_oob)` pair; it does not
mutate the point set. -/
def compute_step (evaluator : List (ℚ × ℚ) → ℚ × ℚ) (cfg : RGConfig)
    (s : List (ℕ × ℕ)) : ℚ × ℚ :=
  evaluator (get_road_points cfg s)

/-- `get_state_observation` (lines 124-126): flatten the coordinate pairs
in slot order. -/
def get_state_observation (s : List (ℕ × ℕ)) : List ℕ :=
  s.flatMap fun p => [p.1, p.2]

/-- The observation list built at lines 120-121 (and 135-136): the
flattened state with `max_oob` appended, as exact numbers before the
`np.float16` cast. -/
def encode_observation (s : List (ℕ × ℕ)) (max_oob : ℚ) : List ℚ :=
  (get_state_observation s).map (fun n => (n : ℚ)) ++ [max_oob]

/-- What one `step` call returns, together with the post-call environment
state. -/
structure StepResult where
  env : EnvState
  obs : List ℚ
  reward : ℚ
  max_oob : ℚ
  done : Bool
deriving Repr, DecidableEq

/-- `step(action)` (lines 85-122).  Returns `none` when the action fails
the action-space assertion of line 86 (in Python, `AssertionError`; the
four-branch `if/elif` chain is exhaustive for in-space actions because
`action_type < 2`).  Otherwise: increment the counter, run the four-branch
dispatch of lines 99-115, compute `done = (step_counter == max_steps)`
(line 117) and the observation (lines 120-121). -/
def step (evaluator : List (ℚ × ℚ) → ℚ × ℚ) (cfg : RGConfig)
    (e : EnvState) (a : RGAction) : Option StepResult :=
  if actionInSpace cfg a then
    let counter := e.step_counter + 1
    let branch : Option (List (ℕ × ℕ) × ℚ × ℚ) :=
      if a.action_type = ADD_UPDATE ∧
          check_coordinates_already_exist e.state a.x a.y = false then
        let s' := e.state.set a.position (a.x, a.y)
        some (s', compute_step evaluator cfg s')
      else if a.action_type = ADD_UPDATE ∧
          check_coordinates_already_exist e.state a.x a.y = true then
        some (e.state, cfg.invalid_test_reward, 0)
      else if a.action_type = REMOVE ∧
          check_some_coordinates_exist_at_position e.state a.position = true then
        let s' := e.state.set a.position (0, 0)
        some (s', compute_step evaluator cfg s')
      else if a.action_type = REMOVE ∧
          check_some_coordinates_exist_at_position e.state a.position = false then
        some (e.state, cfg.invalid_test_reward, 0)
      else
        none
    branch.map fun r =>
      { env := { state := r.1, step_counter := counter }
        obs := encode_observation r.1 r.2.2
        reward := r.2.1
        max_oob := r.2.2
        done := counter == cfg.max_steps }
  else
    none

/-- `reset` (lines 128-137): re-initialise every slot to the sentinel and
return the observation of the empty state with OOB `0.0`.  The call
`super().reset(seed=seed)` is commented out in the source (line 129), so
`step_counter` is left untouched. -/
def reset (cfg : RGConfig) (e : EnvState) : EnvState × List ℚ :=
  let s : List (ℕ × ℕ) := List.replicate cfg.max_number_of_points (0, 0)
  ({ state := s, step_counter := e.step_counter },
   encode_observation s 0)

/-- Round-to-nearest-even of a natural number at 11 significant bits: the
value `np.float16(n)` denotes for naturals in the normal finite range
(`n < 65520`), which covers every observation coordinate.  When
`n < 2^11 = 2048` no bits are dropped (`n.log2 - 10 = 0` in truncated
subtraction) and the value is exact. -/
def fp16Round (n : ℕ) : ℕ :=
  let e := n.log2 - 10
  let p := 2 ^ e
  let q := n / p
  let r := n % p
  if 2 * r > p ∨ (2 * r = p ∧ q % 2 = 1) then (q + 1) * p else q * p

/-- Running a whole sequence of `step` calls from a state; `none` as soon
as one action fails the action-space assertion. -/
def run (evaluator : List (ℚ × ℚ) → ℚ × ℚ) (cfg : RGConfig)
    (e : EnvState) : List RGAction → Option EnvState
  | [] => some e
  | a :: rest =>
      (step evaluator cfg e a).bind fun r => run evaluator cfg r.env rest

/-- No two non-sentinel slots hold equal coordinate pairs. -/
def uniquePresent (s : List (ℕ × ℕ)) : Prop :=
  ∀ i j, i < s.length → j < s.length → i ≠ j →
    s.getD i (0, 0) ≠ (0, 0) → s.getD i (0, 0) ≠ s.getD j (0, 0)

/-! ## Helper lemmas -/

/-- A concrete evaluator used by witnesses: reward `7`, out-of-bounds `3`. -/
def ev73 : List (ℚ × ℚ) → ℚ × ℚ := fun _ => (7, 3)

lemma number_of_discrete_coords_default :
    number_of_discrete_coords defaultRGConfig = 1800 := by
  norm_num [number_of_discrete_coords, map_buffer_area_width,
    discretization_precision, defaultRGConfig]

lemma getD_set_ne (l : List (ℕ × ℕ)) (n i : ℕ) (v : ℕ × ℕ) (h : i ≠ n) :
    (l.set n v).getD i (0, 0) = l.getD i (0, 0) := by
  simp [List.getD_eq_getElem?_getD, List.getElem?_set_ne (by omega : n ≠ i)]

lemma getD_set_self (l : List (ℕ × ℕ)) (n : ℕ) (v : ℕ × ℕ) (h : n < l.length) :
    (l.set n v).getD n (0, 0) = v := by
  simp [List.getD_eq_getElem?_getD, List.getElem?_set_self, h]

lemma getD_mem (l : List (ℕ × ℕ)) (i : ℕ) (h : i < l.length) :
    l.getD i (0, 0) ∈ l := by
  rw [List.getD_eq_getElem?_getD, List.getElem?_eq_getElem h]
  exact List.getElem_mem h

/-- If the duplicate scan comes back false, no slot holds `(x, y)`. -/
lemma not_mem_of_check_false {l : List (ℕ × ℕ)} {x y : ℕ}
    (h : check_coordinates_already_exist l x y = false) :
    ∀ p ∈ l, p ≠ (x, y) := by
  intro p hp he
  simp only [check_coordinates_already_exist, List.any_eq_false,
    Bool.and_eq_true, beq_iff_eq, not_and] at h
  subst he
  exact h (x, y) hp rfl rfl

/-- If some slot holds `(x, y)`, the duplicate scan comes back true. -/
lemma check_true_of_getD {l : List (ℕ × ℕ)} {x y i : ℕ} (hi : i < l.length)
    (h : l.getD i (0, 0) = (x, y)) :
    check_coordinates_already_exist l x y = true := by
  simp only [check_coordinates_already_exist, List.any_eq_true,
    Bool.and_eq_true, beq_iff_eq]
  exact ⟨(x, y), h ▸ getD_mem l i hi, rfl, rfl⟩

/-- `step` on the accepted ADD_UPDATE branch (lines 99-102). -/
lemma step_add_accept (ev : List (ℚ × ℚ) → ℚ × ℚ) (cfg : RGConfig)
    (e : EnvState) (a : RGAction) (h : actionInSpace cfg a)
    (ht : a.action_type = ADD_UPDATE)
    (hc : check_coordinates_already_exist e.state a.x a.y = false) :
    step ev cfg e a = some
      { env := { state := e.state.set a.position (a.x, a.y)
                 step_counter := e.step_counter + 1 }
        obs := encode_observation (e.state.set a.position (a.x, a.y))
          (compute_step ev cfg (e.state.set a.position (a.x, a.y))).2
        reward := (compute_step ev cfg (e.state.set a.position (a.x, a.y))).1
        max_oob := (compute_step ev cfg (e.state.set a.position (a.x, a.y))).2
        done := e.step_counter + 1 == cfg.max_steps } := by
  simp only [step, if_pos h]
  simp [ht, hc]

/-- `step` on the rejected (duplicate coordinates) ADD_UPDATE branch
(lines 103-106). -/
lemma step_add_reject (ev : List (ℚ × ℚ) → ℚ × ℚ) (cfg : RGConfig)
    (e : EnvState) (a : RGAction) (h : actionInSpace cfg a)
    (ht : a.action_type = ADD_UPDATE)
    (hc : check_coordinates_already_exist e.state a.x a.y = true) :
    step ev cfg e a = some
      { env := { state := e.state, step_counter := e.step_counter + 1 }
        obs := encode_observation e.state 0
        reward := cfg.invalid_test_reward
        max_oob := 0
        done := e.step_counter + 1 == cfg.max_steps } := by
  simp only [step, if_pos h]
  simp [ht, hc]

/-- `step` on the accepted REMOVE branch (lines 107-110). -/
lemma step_remove_accept (ev : List (ℚ × ℚ) → ℚ × ℚ) (cfg : RGConfig)
    (e : EnvState) (a : RGAction) (h : actionInSpace cfg a)
    (ht : a.action_type = REMOVE)
    (hc : check_some_coordinates_exist_at_position e.state a.position = true) :
    step ev cfg e a = some
      { env := { state := e.state.set a.position (0, 0)
                 step_counter := e.step_counter + 1 }
        obs := encode_observation (e.state.set a.position (0, 0))
          (compute_step ev cfg (e.state.set a.position (0, 0))).2
        reward := (compute_step ev cfg (e.state.set a.position (0, 0))).1
        max_oob := (compute_step ev cfg (e.state.set a.position (0, 0))).2
        done := e.step_counter + 1 == cfg.max_steps } := by
  simp only [step, if_pos h]
  simp [ht, hc, ADD_UPDATE, REMOVE]

/-- `step` on the rejected (empty slot) REMOVE branch (lines 111-115). -/
lemma step_remove_reject (ev : List (ℚ × ℚ) → ℚ × ℚ) (cfg : RGConfig)
    (e : EnvState) (a : RGAction) (h : actionInSpace cfg a)
    (ht : a.action_type = REMOVE)
    (hc : check_some_coordinates_exist_at_position e.state a.position = false) :
    step ev cfg e a = some
      { env := { state := e.state, step_counter := e.step_counter + 1 }
        obs := encode_observation e.state 0
        reward := cfg.invalid_test_reward
        max_oob := 0
        done := e.step_counter + 1 == cfg.max_steps } := by
  simp only [step, if_pos h]
  simp [ht, hc, ADD_UPDATE, REMOVE]

lemma actionInSpace_mk (cfg : RGConfig) (a : RGAction)
    (hm : cfg.max_number_of_points = 5)
    (hn : number_of_discrete_coords cfg = 1800)
    (h1 : a.action_type < 2) (h2 : a.position < 5)
    (h3 : a.x < 1800) (h4 : a.y < 1800) : actionInSpace cfg a := by
  refine ⟨h1, by omega, ?_, ?_⟩ <;> rw [hn]
  · exact_mod_cast h3
  · exact_mod_cast h4

/-- The construction arguments of the C1 failing input: default ones with
`max_steps = 1`. -/
def rgConfig1 : RGConfig := { defaultRGConfig with max_steps := 1 }

lemma number_of_discrete_coords_config1 :
    number_of_discrete_coords rgConfig1 = 1800 :=
  number_of_discrete_coords_default

/-! ## Claims -/

/-- C1: the claim says that after any call to `reset` the `step_counter`
equals 0.  The code disagrees: `reset` re-initialises the point slots but
leaves `step_counter` untouched (the `super().reset(seed=seed)` call at
line 129 is commented out).  Concretely, with `max_steps = 1`, one
accepted step from the initial state followed by `reset` leaves
`step_counter = 1 ≠ 0`. -/
theorem C1_reset_keeps_step_counter :
    (step ev73 rgConfig1 (initialEnv rgConfig1) ⟨0, 0, 5, 5⟩).map
        (fun r => (reset rgConfig1 r.env).1.step_counter) = some 1 ∧
      (1 : ℕ) ≠ 0 := by
  refine ⟨?_, one_ne_zero⟩
  rw [step_add_accept ev73 rgConfig1 (initialEnv rgConfig1) ⟨0, 0, 5, 5⟩
    (actionInSpace_mk _ _ rfl number_of_discrete_coords_config1
      (by norm_num) (by norm_num) (by norm_num) (by norm_num))
    rfl rfl]
  rfl

/-- C2, counterexample: the claim says a slot enters the snapshot iff its
pair differs from `(0, 0)`, explicitly including points with exactly one
zero coordinate such as `(0, 5)`.  The code keeps a slot only when *both*
coordinates are nonzero (line 209), so a state holding `(0, 5)` yields an
empty snapshot even though `(0, 5) ≠ (0, 0)`. -/
theorem C2_counterexample :
    get_road_points defaultRGConfig [(0, 5), (0, 0), (0, 0), (0, 0), (0, 0)] = [] ∧
      ((0 : ℕ), (5 : ℕ)) ≠ ((0 : ℕ), (0 : ℕ)) := by
  exact ⟨rfl, by decide⟩

/-- C2, amended: the snapshot handed to the RoadEvaluator contains, in
slot order, exactly the points of every slot *both of whose coordinates
are nonzero* (a slot with exactly one zero coordinate, such as `(0, 5)`,
is omitted), each converted to continuous space by `to_continuous`. -/
theorem C2_snapshot_filters_both_nonzero (cfg : RGConfig) (s : List (ℕ × ℕ)) :
    get_road_points cfg s =
      (s.filter fun p => p.1 != 0 && p.2 != 0).map
        (fun p => (to_continuous cfg p.1, to_continuous cfg p.2)) := by
  induction s with
  | nil => rfl
  | cons p rest ih =>
      simp only [get_road_points, List.filter_cons]
      by_cases h : p.1 ≠ 0 ∧ p.2 ≠ 0
      · have hb : (p.1 != 0 && p.2 != 0) = true := by
          simp [bne_iff_ne, h.1, h.2]
        rw [if_pos h, hb]
        simp [to_continuous, ih]
      · have hb : (p.1 != 0 && p.2 != 0) = false := by
          rcases Decidable.not_and_iff_or_not.mp h with h0 | h0 <;>
            simp [bne_iff_ne, Decidable.not_not.mp h0]
        rw [if_neg h, hb]
        simp [ih]

/-- C3, counterexample: the claim says an in-bounds ADD_UPDATE whose
coordinates are not held by any *present* slot is accepted, in particular
an add of `(0, 0)` while slots are empty.  The code's duplicate scan
(lines 219-223) also matches sentinel slots, so from the all-sentinel
initial state the add of `(0, 0)` is rejected: the reward is
`invalid_test_reward`, not the evaluator's reward `7`. -/
theorem C3_counterexample :
    (step ev73 defaultRGConfig (initialEnv defaultRGConfig) ⟨0, 0, 0, 0⟩).map
        (fun r => (r.env.state, r.reward)) =
      some ((initialEnv defaultRGConfig).state, defaultRGConfig.invalid_test_reward) ∧
      defaultRGConfig.invalid_test_reward ≠
        (compute_step ev73 defaultRGConfig
          ((initialEnv defaultRGConfig).state.set 0 (0, 0))).1 := by
  constructor
  · rw [step_add_reject ev73 defaultRGConfig (initialEnv defaultRGConfig) ⟨0, 0, 0, 0⟩
      (actionInSpace_mk _ _ rfl number_of_discrete_coords_default
        (by norm_num) (by norm_num) (by norm_num) (by norm_num))
      rfl rfl]
    rfl
  · show (-10 : ℚ) ≠ 7
    norm_num

/-- C3, amended: an in-bounds ADD_UPDATE is accepted iff its coordinates
are not held by *any* slot, sentinel slots included (so an add of `(0, 0)`
is rejected whenever some slot is empty); when the scan finds no match,
slot `position` is overwritten with `(x, y)` and the evaluator is invoked
on the new snapshot. -/
theorem C3_add_accepted (ev : List (ℚ × ℚ) → ℚ × ℚ) (cfg : RGConfig)
    (e : EnvState) (a : RGAction) (h : actionInSpace cfg a)
    (ht : a.action_type = ADD_UPDATE)
    (hc : check_coordinates_already_exist e.state a.x a.y = false) :
    (step ev cfg e a).map (fun r => (r.env.state, r.reward, r.max_oob)) =
      some (e.state.set a.position (a.x, a.y),
        compute_step ev cfg (e.state.set a.position (a.x, a.y))) := by
  rw [step_add_accept ev cfg e a h ht hc]
  rfl

/-- Witness for C3 (amended): from the initial state, the in-bounds add of
`(5, 5)` at slot 0 is accepted and the evaluator's pair is returned. -/
theorem C3_add_accepted_witness :
    actionInSpace defaultRGConfig ⟨0, 0, 5, 5⟩ ∧
      (step ev73 defaultRGConfig (initialEnv defaultRGConfig) ⟨0, 0, 5, 5⟩).map
          (fun r => (r.env.state, r.reward, r.max_oob)) =
        some ([(5, 5), (0, 0), (0, 0), (0, 0), (0, 0)], 7, 3) := by
  have h : actionInSpace defaultRGConfig ⟨0, 0, 5, 5⟩ :=
    actionInSpace_mk _ _ rfl number_of_discrete_coords_default
      (by norm_num) (by norm_num) (by norm_num) (by norm_num)
  refine ⟨h, ?_⟩
  have hres := C3_add_accepted ev73 defaultRGConfig (initialEnv defaultRGConfig)
    ⟨0, 0, 5, 5⟩ h rfl rfl
  simpa [initialEnv, defaultRGConfig, compute_step, ev73] using hres

/-- Below `2^11` every natural is an exact half-precision value: no bits
are dropped by the round. -/
lemma fp16Round_eq_self {n : ℕ} (h : n < 2048) : fp16Round n = n := by
  unfold fp16Round
  have hl : n.log2 ≤ 10 := by
    by_cases h0 : n = 0
    · simp [h0]
    · have := (Nat.log2_lt h0).mpr (by omega : n < 2 ^ 11)
      omega
  have he : n.log2 - 10 = 0 := by omega
  simp [he, Nat.mod_one]

/-- C4: with the default configuration the per-axis coordinate range is
`number_of_discrete_coords = 1800`, and the half-precision cast applied to
the observation vector (`np.float16`, modelled by `fp16Round`) is exact —
hence injective — below `2^11 = 2048`; so no two distinct in-range
discrete coordinates are aliased by the chosen numeric width. -/
theorem C4_no_coordinate_aliasing (d1 d2 : ℕ)
    (h1 : (d1 : ℚ) < number_of_discrete_coords defaultRGConfig)
    (h2 : (d2 : ℚ) < number_of_discrete_coords defaultRGConfig)
    (hne : d1 ≠ d2) : fp16Round d1 ≠ fp16Round d2 := by
  rw [number_of_discrete_coords_default] at h1 h2
  have hd1 : d1 < 1800 := by exact_mod_cast h1
  have hd2 : d2 < 1800 := by exact_mod_cast h2
  rw [fp16Round_eq_self (by omega), fp16Round_eq_self (by omega)]
  exact hne

/-- Witness for C4: the in-range coordinates 5 and 7 stay distinct under
the half-precision round. -/
theorem C4_no_coordinate_aliasing_witness :
    ((5 : ℕ) : ℚ) < number_of_discrete_coords defaultRGConfig ∧
      ((7 : ℕ) : ℚ) < number_of_discrete_coords defaultRGConfig ∧
      fp16Round 5 ≠ fp16Round 7 := by
  have h1 : ((5 : ℕ) : ℚ) < number_of_discrete_coords defaultRGConfig := by
    rw [number_of_discrete_coords_default]; norm_num
  have h2 : ((7 : ℕ) : ℚ) < number_of_discrete_coords defaultRGConfig := by
    rw [number_of_discrete_coords_default]; norm_num
  exact ⟨h1, h2, C4_no_coordinate_aliasing 5 7 h1 h2 (by norm_num)⟩

/-- C5: every rejected in-bounds action — a duplicate-coordinate
ADD_UPDATE or a REMOVE of an empty slot — returns exactly
`invalid_test_reward` and `max_oob = 0`, and leaves the point set
untouched. -/
theorem C5_rejection_reward_and_frame (ev : List (ℚ × ℚ) → ℚ × ℚ)
    (cfg : RGConfig) (e : EnvState) (a : RGAction) (h : actionInSpace cfg a)
    (hrej : (a.action_type = ADD_UPDATE ∧
        check_coordinates_already_exist e.state a.x a.y = true) ∨
      (a.action_type = REMOVE ∧
        check_some_coordinates_exist_at_position e.state a.position = false)) :
    (step ev cfg e a).map (fun r => (r.env.state, r.reward, r.max_oob)) =
      some (e.state, cfg.invalid_test_reward, 0) := by
  rcases hrej with ⟨ht, hc⟩ | ⟨ht, hc⟩
  · rw [step_add_reject ev cfg e a h ht hc]
    rfl
  · rw [step_remove_reject ev cfg e a h ht hc]
    rfl

/-- Witness for C5: from the all-sentinel initial state the add of
`(0, 0)` is a duplicate (the sentinel matches), so it is rejected with
`invalid_test_reward = -10`, zero OOB and an unchanged point set. -/
theorem C5_rejection_reward_and_frame_witness :
    actionInSpace defaultRGConfig ⟨0, 0, 0, 0⟩ ∧
      (step ev73 defaultRGConfig (initialEnv defaultRGConfig) ⟨0, 0, 0, 0⟩).map
          (fun r => (r.env.state, r.reward, r.max_oob)) =
        some ((initialEnv defaultRGConfig).state,
          defaultRGConfig.invalid_test_reward, 0) := by
  have h : actionInSpace defaultRGConfig ⟨0, 0, 0, 0⟩ :=
    actionInSpace_mk _ _ rfl number_of_discrete_coords_default
      (by norm_num) (by norm_num) (by norm_num) (by norm_num)
  exact ⟨h, C5_rejection_reward_and_frame ev73 defaultRGConfig
    (initialEnv defaultRGConfig) ⟨0, 0, 0, 0⟩ h (Or.inl ⟨rfl, rfl⟩)⟩

/-- C7: every `step` call increments `step_counter` by exactly one, and
the returned `done` flag is true exactly when the incremented counter
equals `max_steps`. -/
theorem C7_step_counter_and_done (ev : List (ℚ × ℚ) → ℚ × ℚ)
    (cfg : RGConfig) (e : EnvState) (a : RGAction) (r : StepResult)
    (h : step ev cfg e a = some r) :
    r.env.step_counter = e.step_counter + 1 ∧
      (r.done = true ↔ e.step_counter + 1 = cfg.max_steps) := by
  by_cases hin : actionInSpace cfg a
  · simp only [step, if_pos hin, Option.map_eq_some'] at h
    obtain ⟨t, hb, rfl⟩ := h
    exact ⟨rfl, by simp⟩
  · simp [step, if_neg hin] at h

/-- Witness for C7: with `max_steps = 1` the very first step after
construction — here a *rejected* add of `(0, 0)` — returns `done = true`. -/
theorem C7_step_counter_and_done_witness :
    step ev73 rgConfig1 (initialEnv rgConfig1) ⟨0, 0, 0, 0⟩ = some
      { env := { state := (initialEnv rgConfig1).state
                 step_counter := (initialEnv rgConfig1).step_counter + 1 }
        obs := encode_observation (initialEnv rgConfig1).state 0
        reward := rgConfig1.invalid_test_reward
        max_oob := 0
        done := (initialEnv rgConfig1).step_counter + 1 == rgConfig1.max_steps } ∧
      ((initialEnv rgConfig1).step_counter + 1 == rgConfig1.max_steps) = true ∧
      ({ env := { state := (initialEnv rgConfig1).state
                  step_counter := (initialEnv rgConfig1).step_counter + 1 }
         obs := encode_observation (initialEnv rgConfig1).state 0
         reward := rgConfig1.invalid_test_reward
         max_oob := 0
         done := (initialEnv rgConfig1).step_counter + 1 == rgConfig1.max_steps
         : StepResult }).env.step_counter = (initialEnv rgConfig1).step_counter + 1 := by
  have hstep := step_add_reject ev73 rgConfig1 (initialEnv rgConfig1) ⟨0, 0, 0, 0⟩
    (actionInSpace_mk _ _ rfl number_of_discrete_coords_config1
      (by norm_num) (by norm_num) (by norm_num) (by norm_num))
    rfl rfl
  exact ⟨hstep, rfl,
    (C7_step_counter_and_done ev73 rgConfig1 (initialEnv rgConfig1) ⟨0, 0, 0, 0⟩ _ hstep).1⟩

/-- C8: an ADD_UPDATE whose target slot already holds exactly the
coordinates being written is rejected as a duplicate (the scan covers the
whole set, the target slot included): the reward is `invalid_test_reward`
and the point set is unchanged. -/
theorem C8_rewrite_same_slot_rejected (ev : List (ℚ × ℚ) → ℚ × ℚ)
    (cfg : RGConfig) (e : EnvState) (a : RGAction) (h : actionInSpace cfg a)
    (ht : a.action_type = ADD_UPDATE)
    (hlen : a.position < e.state.length)
    (hslot : e.state.getD a.position (0, 0) = (a.x, a.y))
    (hns : (a.x, a.y) ≠ ((0 : ℕ), (0 : ℕ))) :
    (step ev cfg e a).map (fun r => (r.env.state, r.reward, r.max_oob)) =
      some (e.state, cfg.invalid_test_reward, 0) := by
  rw [step_add_reject ev cfg e a h ht (check_true_of_getD hlen hslot)]
  rfl

/-- Witness for C8: slot 0 holds `(5, 5)`; re-adding `(5, 5)` at slot 0 is
rejected and the state is unchanged. -/
theorem C8_rewrite_same_slot_rejected_witness :
    actionInSpace defaultRGConfig ⟨0, 0, 5, 5⟩ ∧
      (step ev73 defaultRGConfig
          ⟨[(5, 5), (0, 0), (0, 0), (0, 0), (0, 0)], 1⟩ ⟨0, 0, 5, 5⟩).map
          (fun r => (r.env.state, r.reward, r.max_oob)) =
        some ((⟨[(5, 5), (0, 0), (0, 0), (0, 0), (0, 0)], 1⟩ : EnvState).state,
          defaultRGConfig.invalid_test_reward, 0) := by
  have h : actionInSpace defaultRGConfig ⟨0, 0, 5, 5⟩ :=
    actionInSpace_mk _ _ rfl number_of_discrete_coords_default
      (by norm_num) (by norm_num) (by norm_num) (by norm_num)
  exact ⟨h, C8_rewrite_same_slot_rejected ev73 defaultRGConfig
    ⟨[(5, 5), (0, 0), (0, 0), (0, 0), (0, 0)], 1⟩ ⟨0, 0, 5, 5⟩ h rfl
    (by norm_num) rfl (by decide)⟩

/-- C9: the discrete-to-continuous conversion is
`d ↦ (d + map_buffer_area_width) / discretization_precision`, and it is
strictly monotonic — hence injective — on the discrete coordinates. -/
theorem C9_to_continuous_formula_mono (cfg : RGConfig) (d1 d2 : ℕ)
    (h : d1 < d2) :
    to_continuous cfg d1 =
        ((d1 : ℚ) + map_buffer_area_width cfg) / discretization_precision ∧
      to_continuous cfg d1 < to_continuous cfg d2 ∧
      to_continuous cfg d1 ≠ to_continuous cfg d2 := by
  have hlt : to_continuous cfg d1 < to_continuous cfg d2 := by
    unfold to_continuous discretization_precision
    have hq : (d1 : ℚ) < (d2 : ℚ) := by exact_mod_cast h
    exact div_lt_div_of_pos_right (by linarith) (by norm_num)
  exact ⟨rfl, hlt, ne_of_lt hlt⟩

/-- Witness for C9: the conversion at the default configuration sends 3
below 4. -/
theorem C9_to_continuous_formula_mono_witness :
    to_continuous defaultRGConfig 3 =
        (((3 : ℕ) : ℚ) + map_buffer_area_width defaultRGConfig) /
          discretization_precision ∧
      to_continuous defaultRGConfig 3 < to_continuous defaultRGConfig 4 ∧
      to_continuous defaultRGConfig 3 ≠ to_continuous defaultRGConfig 4 :=
  C9_to_continuous_formula_mono defaultRGConfig 3 4 (by norm_num)

/-- Case analysis on the state produced by an accepted or rejected step:
either untouched, or slot `position` overwritten with the action's
coordinates (only when the duplicate scan failed to find them), or slot
`position` cleared to the sentinel. -/
lemma step_state_cases (ev : List (ℚ × ℚ) → ℚ × ℚ) (cfg : RGConfig)
    (e : EnvState) (a : RGAction) (r : StepResult)
    (h : step ev cfg e a = some r) :
    r.env.state = e.state ∨
      (r.env.state = e.state.set a.position (a.x, a.y) ∧
        check_coordinates_already_exist e.state a.x a.y = false) ∨
      r.env.state = e.state.set a.position (0, 0) := by
  by_cases hin : actionInSpace cfg a
  · simp only [step, if_pos hin, Option.map_eq_some'] at h
    obtain ⟨t, hb, rfl⟩ := h
    show t.1 = e.state ∨ (t.1 = e.state.set a.position (a.x, a.y) ∧ _) ∨
      t.1 = e.state.set a.position (0, 0)
    split at hb
    next hcond =>
      exact Or.inr (Or.inl ⟨(congrArg Prod.fst (Option.some.inj hb)).symm, hcond.2⟩)
    next =>
      split at hb
      · exact Or.inl (congrArg Prod.fst (Option.some.inj hb)).symm
      · split at hb
        · exact Or.inr (Or.inr (congrArg Prod.fst (Option.some.inj hb)).symm)
        · split at hb
          · exact Or.inl (congrArg Prod.fst (Option.some.inj hb)).symm
          · cases hb
  · simp [step, if_neg hin] at h

/-- C10: one `step` call modifies at most the slot named by the action's
`position` field; every other slot holds exactly the same pair after the
call as before it. -/
theorem C10_step_touches_one_slot (ev : List (ℚ × ℚ) → ℚ × ℚ)
    (cfg : RGConfig) (e : EnvState) (a : RGAction) (r : StepResult)
    (h : step ev cfg e a = some r) (i : ℕ) (hi : i ≠ a.position) :
    r.env.state.getD i (0, 0) = e.state.getD i (0, 0) := by
  rcases step_state_cases ev cfg e a r h with hs | ⟨hs, _⟩ | hs <;> rw [hs]
  · exact getD_set_ne _ _ _ _ hi
  · exact getD_set_ne _ _ _ _ hi

/-- Witness for C10: the accepted add of `(5, 5)` at slot 0 leaves slot 1
untouched. -/
theorem C10_step_touches_one_slot_witness :
    step ev73 defaultRGConfig (initialEnv defaultRGConfig) ⟨0, 0, 5, 5⟩ = some
      { env := { state := (initialEnv defaultRGConfig).state.set 0 (5, 5)
                 step_counter := (initialEnv defaultRGConfig).step_counter + 1 }
        obs := encode_observation ((initialEnv defaultRGConfig).state.set 0 (5, 5))
          (compute_step ev73 defaultRGConfig
            ((initialEnv defaultRGConfig).state.set 0 (5, 5))).2
        reward := (compute_step ev73 defaultRGConfig
          ((initialEnv defaultRGConfig).state.set 0 (5, 5))).1
        max_oob := (compute_step ev73 defaultRGConfig
          ((initialEnv defaultRGConfig).state.set 0 (5, 5))).2
        done := (initialEnv defaultRGConfig).step_counter + 1 ==
          defaultRGConfig.max_steps } ∧
      ((initialEnv defaultRGConfig).state.set 0 (5, 5)).getD 1 (0, 0) =
        (initialEnv defaultRGConfig).state.getD 1 (0, 0) := by
  have hstep := step_add_accept ev73 defaultRGConfig (initialEnv defaultRGConfig)
    ⟨0, 0, 5, 5⟩
    (actionInSpace_mk _ _ rfl number_of_discrete_coords_default
      (by norm_num) (by norm_num) (by norm_num) (by norm_num))
    rfl rfl
  exact ⟨hstep, C10_step_touches_one_slot ev73 defaultRGConfig
    (initialEnv defaultRGConfig) ⟨0, 0, 5, 5⟩ _ hstep 1 (by norm_num)⟩

/-- Overwriting a slot with coordinates the duplicate scan did not find
preserves uniqueness of the non-sentinel slots. -/
lemma uniquePresent_set_of_check_false {s : List (ℕ × ℕ)} {x y pos : ℕ}
    (hu : uniquePresent s)
    (hc : check_coordinates_already_exist s x y = false) :
    uniquePresent (s.set pos (x, y)) := by
  intro i j hi hj hij hsent
  rw [List.length_set] at hi hj
  by_cases hip : i = pos
  · subst hip
    rw [getD_set_self s i (x, y) hi, getD_set_ne s i j (x, y) (Ne.symm hij)]
    exact fun he => not_mem_of_check_false hc _ (getD_mem s j hj) he.symm
  · rw [getD_set_ne s pos i (x, y) hip] at hsent ⊢
    by_cases hjp : j = pos
    · subst hjp
      rw [getD_set_self s j (x, y) hj]
      exact not_mem_of_check_false hc _ (getD_mem s i hi)
    · rw [getD_set_ne s pos j (x, y) hjp]
      exact hu i j hi hj hij hsent

/-- Clearing a slot to the sentinel preserves uniqueness of the
non-sentinel slots. -/
lemma uniquePresent_set_sentinel {s : List (ℕ × ℕ)} {pos : ℕ}
    (hu : uniquePresent s) : uniquePresent (s.set pos (0, 0)) := by
  intro i j hi hj hij hsent
  rw [List.length_set] at hi hj
  by_cases hip : i = pos
  · subst hip
    rw [getD_set_self s i (0, 0) hi] at hsent
    exact absurd rfl hsent
  · rw [getD_set_ne s pos i (0, 0) hip] at hsent ⊢
    by_cases hjp : j = pos
    · subst hjp
      rw [getD_set_self s j (0, 0) hj]
      intro he
      exact hsent he
    · rw [getD_set_ne s pos j (0, 0) hjp]
      exact hu i j hi hj hij hsent

/-- One step — accepted or rejected — preserves uniqueness of the
non-sentinel slots. -/
lemma uniquePresent_step (ev : List (ℚ × ℚ) → ℚ × ℚ) (cfg : RGConfig)
    (e : EnvState) (a : RGAction) (r : StepResult)
    (h : step ev cfg e a = some r) (hu : uniquePresent e.state) :
    uniquePresent r.env.state := by
  rcases step_state_cases ev cfg e a r h with hs | ⟨hs, hc⟩ | hs <;> rw [hs]
  · exact hu
  · exact uniquePresent_set_of_check_false hu hc
  · exact uniquePresent_set_sentinel hu

/-- The all-sentinel state trivially satisfies the uniqueness invariant. -/
lemma uniquePresent_initial (cfg : RGConfig) :
    uniquePresent (initialEnv cfg).state := by
  intro i j hi hj hij hsent
  exfalso
  apply hsent
  show (List.replicate cfg.max_number_of_points ((0 : ℕ), (0 : ℕ))).getD i (0, 0) = (0, 0)
  rw [List.getD_eq_getElem?_getD, List.getElem?_replicate]
  split <;> simp

/-- Running any action list preserves the uniqueness invariant. -/
lemma uniquePresent_run (ev : List (ℚ × ℚ) → ℚ × ℚ) (cfg : RGConfig) :
    ∀ (acts : List RGAction) (e e' : EnvState), uniquePresent e.state →
      run ev cfg e acts = some e' → uniquePresent e'.state := by
  intro acts
  induction acts with
  | nil =>
      intro e e' hu h
      obtain rfl := Option.some.inj h
      exact hu
  | cons a rest ih =>
      intro e e' hu h
      obtain ⟨r, hstep, hrun⟩ := Option.bind_eq_some.mp h
      exact ih r.env e' (uniquePresent_step ev cfg e a r hstep hu) hrun

/-- C6: starting from the all-sentinel state, after any sequence of
in-bounds step calls no two slots holding non-sentinel pairs hold equal
coordinate pairs. -/
theorem C6_uniqueness_invariant (ev : List (ℚ × ℚ) → ℚ × ℚ)
    (cfg : RGConfig) (acts : List RGAction) (e' : EnvState)
    (h : run ev cfg (initialEnv cfg) acts = some e') :
    uniquePresent e'.state :=
  uniquePresent_run ev cfg acts (initialEnv cfg) e'
    (uniquePresent_initial cfg) h

/-- Witness for C6: the one-action episode adding `(5, 5)` at slot 0 ends
in a state satisfying the uniqueness invariant. -/
theorem C6_uniqueness_invariant_witness :
    run ev73 defaultRGConfig (initialEnv defaultRGConfig) [⟨0, 0, 5, 5⟩] =
        some ⟨(initialEnv defaultRGConfig).state.set 0 (5, 5),
          (initialEnv defaultRGConfig).step_counter + 1⟩ ∧
      uniquePresent ((initialEnv defaultRGConfig).state.set 0 (5, 5)) := by
  have hrun : run ev73 defaultRGConfig (initialEnv defaultRGConfig) [⟨0, 0, 5, 5⟩] =
      some ⟨(initialEnv defaultRGConfig).state.set 0 (5, 5),
        (initialEnv defaultRGConfig).step_counter + 1⟩ := by
    show (step ev73 defaultRGConfig (initialEnv defaultRGConfig) ⟨0, 0, 5, 5⟩).bind
        (fun r => run ev73 defaultRGConfig r.env []) = _
    rw [step_add_accept ev73 defaultRGConfig (initialEnv defaultRGConfig)
      ⟨0, 0, 5, 5⟩
      (actionInSpace_mk _ _ rfl number_of_discrete_coords_default
        (by norm_num) (by norm_num) (by norm_num) (by norm_num))
      rfl rfl]
    rfl
  exact ⟨hrun, C6_uniqueness_invariant ev73 defaultRGConfig [⟨0, 0, 5, 5⟩] _ hrun⟩
